import Mathlib

/-!
Shallow embedding of the ruvector SONA adaptive-learning core and of its
WASM binding layer (src/crates/sona/src/wasm.rs).  The binding layer is
translated directly from the source.  The inner `SonaEngine` operations it
calls live in a crate that is not part of the repository snapshot, so each
of them is modelled from the specification; every such definition carries a
doc comment starting with `Modelled from the spec:`.  Machine floats (f32)
are modelled as rationals, u64/u32/usize as naturals with explicit wrap
where overflow matters.
-/

namespace Sona

abbrev Vec := List ℚ

abbrev Mat := List Vec

def dot (a b : Vec) : ℚ := (List.zipWith (fun x y => x * y) a b).sum

def matVec (M : Mat) (v : Vec) : Vec := M.map (fun row => dot row v)

def vecAdd (a b : Vec) : Vec := List.zipWith (fun x y => x + y) a b

def vecScale (c : ℚ) (v : Vec) : Vec := v.map (fun x => c * x)

def zeroMat (rows cols : Nat) : Mat := List.replicate rows (List.replicate cols 0)

/-- Configuration record of the engine; fields as listed in the external
interface contract (hidden/embedding dimensions, the two LoRA ranks and
learning rates, EWC lambda, cluster count, buffer capacity and the quality
threshold). -/
structure SonaConfig where
  hidden_dim : Nat
  embedding_dim : Nat
  micro_lora_rank : Nat
  base_lora_rank : Nat
  micro_lora_lr : ℚ
  base_lora_lr : ℚ
  ewc_lambda : ℚ
  pattern_clusters : Nat
  trajectory_capacity : Nat
  quality_threshold : ℚ
deriving DecidableEq

/-- Error taxonomy of the engine. -/
inductive ErrorKind where
  | InvalidInput
  | NotFound
  | InvalidState
  | OutOfRange
  | Divergence
  | Disabled
deriving DecidableEq

/-- One recorded step of a trajectory: node visited, per-step score,
latency in microseconds. -/
structure TrajectoryStep where
  node_id : Nat
  score : ℚ
  latency_us : Nat
deriving DecidableEq

/-- One interaction episode: starting embedding, ordered steps, optional
final score (`none` while the trajectory is open). -/
structure Trajectory where
  id : Nat
  query_embedding : Vec
  steps : List TrajectoryStep
  final_score : Option ℚ
deriving DecidableEq

/-- A low-rank factor pair; the applied delta is
`scale * (B * (A * input))`. -/
structure LoraPair where
  A : Mat
  B : Mat
  scale : ℚ
deriving DecidableEq

/-- A cluster centroid over trajectory embeddings. -/
structure Pattern where
  id : Nat
  centroid : Vec
  member_count : Nat
  aggregate_quality : ℚ
deriving DecidableEq

/-- Engine state: configuration, enabled flag, the trajectory id supply of
the core, open trajectories, the buffer of finalized trajectories, pattern
memory, the Micro adapter, the per-layer Base adapter, the EWC anchor with
its per-layer importance, the running score baseline and cycle counters. -/
structure SonaEngine where
  config : SonaConfig
  enabled : Bool
  next_traj_id : Nat
  open_trajectories : List Trajectory
  buffer : List Trajectory
  patterns : List Pattern
  micro : LoraPair
  base_layers : List LoraPair
  ewc_anchor : List LoraPair
  ewc_importance : List ℚ
  baseline : ℚ
  cycles_run : Nat
  anchor_version : Nat
deriving DecidableEq

/-- Modelled from the spec: `SonaEngine::begin_trajectory` (core crate not
under src/).  The enabled flag gates whether new trajectories are accepted;
begin fails with `InvalidInput` if the embedding length differs from the
configured embedding dimension, and otherwise allocates a fresh open
trajectory whose id comes from the core's own monotone id supply, returning
that id (the builder's handle). -/
def SonaEngine.begin_trajectory (e : SonaEngine) (emb : Vec) :
    Except ErrorKind (SonaEngine × Nat) :=
  if e.enabled = false then .error .Disabled
  else if emb.length ≠ e.config.embedding_dim then .error .InvalidInput
  else .ok
    ({ e with
        next_traj_id := e.next_traj_id + 1,
        open_trajectories := ⟨e.next_traj_id, emb, [], none⟩ :: e.open_trajectories },
     e.next_traj_id)

/-- Modelled from the spec: `SonaEngine::apply_micro_lora` (core crate not
under src/).  The forward pass writes `input + scale * (B (A input))` into
the caller's output buffer; a disabled engine is an identity pass-through
returning the unmodified input. -/
def SonaEngine.apply_micro_lora (e : SonaEngine) (input : Vec) : Vec :=
  if e.enabled then
    vecAdd input (vecScale e.micro.scale (matVec e.micro.B (matVec e.micro.A input)))
  else input

/-- Modelled from the spec: `SonaEngine::apply_base_lora` (core crate not
under src/).  Same low-rank composition as Micro but per layer; fails with
`OutOfRange` when the layer index is beyond the configured layer count; a
disabled engine is an identity pass-through. -/
def SonaEngine.apply_base_lora (e : SonaEngine) (layer_idx : Nat) (input : Vec) :
    Except ErrorKind Vec :=
  if e.enabled = false then .ok input
  else
    match e.base_layers[layer_idx]? with
    | some L => .ok (vecAdd input (vecScale L.scale (matVec L.B (matVec L.A input))))
    | none => .error .OutOfRange

/-- Modelled from the spec: the consolidation cycle of §4.4.  Quality-gated
trajectories drive a single aggregated step on the Base layers, the step on
each layer shrunk by the EWC importance of its anchor; afterwards a fresh
anchor snapshot is taken, importance is recomputed, the consumed buffer is
cleared and the cycle counters advance. -/
def SonaEngine.runLearningCycle (e : SonaEngine) : SonaEngine × String :=
  let eligible := e.buffer.filter fun t =>
    match t.final_score with
    | some s => decide (e.config.quality_threshold ≤ s)
    | none => false
  let n := eligible.length
  let adj : ℚ :=
    if n = 0 then 0
    else (eligible.map fun t => t.final_score.getD 0 - e.baseline).sum / (n : ℚ)
  let stepOf : ℚ → ℚ := fun imp =>
    e.config.base_lora_lr * adj / (1 + e.config.ewc_lambda * imp)
  let layers := (e.base_layers.zip e.ewc_importance).map fun p =>
    { p.1 with B := p.1.B.map fun row => row.map fun w => w + stepOf p.2 }
  ({ e with
      base_layers := layers,
      ewc_anchor := layers,
      ewc_importance := e.ewc_importance.map fun imp => |stepOf imp|,
      buffer := [],
      baseline := e.baseline + e.config.base_lora_lr * adj,
      cycles_run := e.cycles_run + 1,
      anchor_version := e.anchor_version + 1 },
   "cycle complete")

/-- Modelled from the spec: `SonaEngine::force_learn` (core crate not under
src/).  Bypasses the due-check and runs a cycle when the engine is enabled
and at least one trajectory is buffered; otherwise it is a no-op that still
returns a diagnostic rather than failing. -/
def SonaEngine.force_learn (e : SonaEngine) : SonaEngine × String :=
  if e.enabled && !e.buffer.isEmpty then e.runLearningCycle
  else (e, "nothing to learn")

/-- Squared Euclidean distance between a query and a pattern centroid (the
fixed metric of the pattern memory; squaring preserves the ordering). -/
def pdist (q : Vec) (p : Pattern) : ℚ :=
  ((List.zipWith (fun x y => x - y) q p.centroid).map (fun x => x * x)).sum

/-- Ranking relation on distance-tagged patterns: ascending distance, ties
broken by higher member count, then by lower pattern id. -/
def patLe (a b : Pattern × ℚ) : Prop :=
  a.2 < b.2 ∨
    (a.2 = b.2 ∧
      (b.1.member_count < a.1.member_count ∨
        (a.1.member_count = b.1.member_count ∧ a.1.id ≤ b.1.id)))

instance : DecidableRel patLe := fun a b => by
  unfold patLe
  exact inferInstance

/-- Modelled from the spec: `SonaEngine::find_patterns` (core crate not
under src/).  Tags every stored pattern with its distance to the query,
sorts by `patLe` and keeps the first `k`; an empty memory yields an empty
result rather than an error. -/
def SonaEngine.find_patterns (e : SonaEngine) (q : Vec) (k : Nat) :
    List (Pattern × ℚ) :=
  ((e.patterns.map fun p => (p, pdist q p)).insertionSort patLe).take k

/-- Modelled from the spec: engine construction from a validated
configuration record; adapters start from zero factors (the observed
material does not fix the Base layer count, so construction starts with no
Base layers). -/
def SonaEngine.ofConfig (c : SonaConfig) : SonaEngine :=
  { config := c,
    enabled := true,
    next_traj_id := 1,
    open_trajectories := [],
    buffer := [],
    patterns := [],
    micro := ⟨zeroMat c.micro_lora_rank c.hidden_dim, zeroMat c.hidden_dim c.micro_lora_rank, 1⟩,
    base_layers := [],
    ewc_anchor := [],
    ewc_importance := [],
    baseline := 0,
    cycles_run := 0,
    anchor_version := 0 }

/-- Console log entries written by the binding layer via
`web_sys::console::log_1` (the format strings of wasm.rs, carried here with
their data). -/
inductive ConsoleEntry where
  | stepLog (trajectory_id : Nat) (node_id : Nat) (score : ℚ) (latency_us : Nat)
  | endLog (trajectory_id : Nat) (final_score : ℚ)
  | feedbackLog (success : Bool) (latency_ms quality reward : ℚ)
deriving DecidableEq

/-- Replace the element at an index, leaving the list unchanged when the
index is out of range. -/
def listModify (f : α → α) : Nat → List α → List α
  | _, [] => []
  | 0, a :: as => f a :: as
  | n + 1, a :: as => a :: listModify f n as

/-- Process-wide state seen by the WASM binding: the `static NEXT_ID`
atomic counter (a u64 initialised to 1, shared by every engine instance in
the process), the engine instances, and the console log. -/
structure WasmProc where
  next_global_id : Nat
  engines : List SonaEngine
  console : List ConsoleEntry
deriving DecidableEq

/-- Fresh process state: the static counter starts at 1. -/
def WasmProc.init (es : List SonaEngine) : WasmProc := ⟨1, es, []⟩

def WasmProc.modifyEngine (s : WasmProc) (i : Nat) (f : SonaEngine → SonaEngine) :
    WasmProc :=
  { s with engines := listModify f i s.engines }

/-- From src/crates/sona/src/wasm.rs lines 115-123:
`start_trajectory` calls `engine.begin_trajectory(query_embedding)` through
a read guard, discards the returned builder, and returns
`NEXT_ID.fetch_add(1, Ordering::Relaxed)` — the previous value of the
process-global counter, whose store wraps at 2^64. -/
def startTrajectory (s : WasmProc) (i : Nat) (query_embedding : Vec) :
    Nat × WasmProc :=
  let s' := s.modifyEngine i fun e =>
    match e.begin_trajectory query_embedding with
    | .ok p => p.1
    | .error _ => e
  (s'.next_global_id,
   { s' with next_global_id := (s'.next_global_id + 1) % 2 ^ 64 })

/-- From src/crates/sona/src/wasm.rs lines 137-145: `record_step` only
formats its arguments into a console log line; it touches no engine state
and returns unit. -/
def recordStep (s : WasmProc) (trajectory_id node_id : Nat) (score : ℚ)
    (latency_us : Nat) : WasmProc :=
  { s with console := s.console ++ [.stepLog trajectory_id node_id score latency_us] }

/-- From src/crates/sona/src/wasm.rs lines 157-163: `end_trajectory` only
formats its arguments into a console log line; it touches no engine state
and returns unit. -/
def endTrajectory (s : WasmProc) (trajectory_id : Nat) (final_score : ℚ) :
    WasmProc :=
  { s with console := s.console ++ [.endLog trajectory_id final_score] }

/-- From src/crates/sona/src/wasm.rs lines 176-183: `learn_from_feedback`
computes `reward = if success then quality else -quality` and logs it; it
touches no engine state. -/
def learnFromFeedback (s : WasmProc) (success : Bool) (latency_ms quality : ℚ) :
    WasmProc :=
  let reward := if success then quality else -quality
  { s with console := s.console ++ [.feedbackLog success latency_ms quality reward] }

/-- From src/crates/sona/src/wasm.rs lines 198-204: `apply_lora` allocates
a zero output buffer of the input's length, lets the core write the Micro
forward pass into it, and returns the buffer. -/
def applyLora (s : WasmProc) (i : Nat) (input : Vec) : Vec :=
  match s.engines[i]? with
  | some e => e.apply_micro_lora input
  | none => List.replicate input.length 0

/-- From src/crates/sona/src/wasm.rs lines 214-220: `apply_lora_layer`
allocates a zero output buffer, calls the core per-layer pass and returns
the buffer; the core's result is discarded by the trailing semicolon, so on
a core error the untouched zero buffer is returned and no error reaches the
caller (the return type `Vec<f32>` has no error channel). -/
def applyLoraLayer (s : WasmProc) (i layer_idx : Nat) (input : Vec) : Vec :=
  match s.engines[i]? with
  | some e =>
    match e.apply_base_lora layer_idx input with
    | .ok v => v
    | .error _ => List.replicate input.length 0
  | none => List.replicate input.length 0

/-- From src/crates/sona/src/wasm.rs lines 262-266: `force_learn` delegates
to the core and returns its diagnostic string. -/
def forceLearn (s : WasmProc) (i : Nat) : String × WasmProc :=
  match s.engines[i]? with
  | some e =>
    let r := e.force_learn
    (r.2, s.modifyEngine i fun _ => r.1)
  | none => ("", s)

/-- From src/crates/sona/src/wasm.rs lines 337-342: `find_patterns`
delegates to the core and serializes the result. -/
def findPatterns (s : WasmProc) (i : Nat) (query_embedding : Vec) (k : Nat) :
    List (Pattern × ℚ) :=
  match s.engines[i]? with
  | some e => e.find_patterns query_embedding k
  | none => []

/-- Dynamic JavaScript value at the binding boundary, as far as the
`with_config` path inspects it: a string, a plain object (the shape of the
documented configuration example), or anything else. -/
inductive JsValue where
  | jstr (s : String)
  | jobject
  | jother
deriving DecidableEq

/-- From src/crates/sona/src/wasm.rs lines 366-373: the local
`serde_wasm_bindgen::from_value` shadowing the crate of the same name
accepts only a JavaScript string, parses it as JSON, and rejects every
non-string value with the fixed error message.  The JSON parser itself is
external (serde_json), so it is a parameter. -/
def serde_from_value (parse : String → Except String SonaConfig) :
    JsValue → Except String SonaConfig
  | .jstr s => parse s
  | _ => .error "Expected JSON string"

/-- From src/crates/sona/src/wasm.rs lines 90-100: `with_config` converts
the dynamic value through `serde_from_value` and wraps the engine built
from the resulting configuration. -/
def with_config (parse : String → Except String SonaConfig) (v : JsValue) :
    Except String SonaEngine :=
  (serde_from_value parse v).map SonaEngine.ofConfig

/-! Concrete fixtures used by the closed theorems: a 4-dimensional
configuration with quality threshold 3/5, a rank-1 Micro adapter, one
rank-2 Base layer, an enabled engine whose internal trajectory-id supply
stands at 100, and a fresh process holding that single engine. -/

def cfg4 : SonaConfig := ⟨4, 4, 1, 2, 1/1000, 1/10000, 1000, 128, 10000, 3/5⟩

def microE : LoraPair := ⟨[[1/10, 0, 0, 0]], [[1/10], [0], [0], [0]], 1⟩

def baseL : LoraPair :=
  ⟨[[1/10, 0, 0, 0], [0, 1/10, 0, 0]], [[1/10, 0], [0, 1/10], [0, 0], [0, 0]], 1⟩

def E1 : SonaEngine :=
  ⟨cfg4, true, 100, [], [], [], microE, [baseL], [baseL], [1], 1/2, 0, 0⟩

def P0 : WasmProc := ⟨1, [E1], []⟩

def emb01 : Vec := [1/10, 1/10, 1/10, 1/10]

def probe1 : Vec := [1, 1, 1, 1]

def S1 : WasmProc := (startTrajectory P0 0 emb01).2

def tid1 : Nat := (startTrajectory P0 0 emb01).1

def S2 : WasmProc := endTrajectory (recordStep S1 tid1 1 (9/10) 100) tid1 (85/100)

def SE1 : WasmProc := endTrajectory P0 7 (1/2)

def Edis : SonaEngine := { E1 with enabled := false }

def Pdis : WasmProc := ⟨1, [Edis], []⟩

/-- C1: the binding does not thread the trajectory id through.  On the
fixture process the id returned by `start_trajectory` is the global-counter
value 1 while the trajectory the core allocated carries internal id 100,
and `record_step`/`end_trajectory` called with the returned id only append
a console log line: no step is appended to any trajectory and no
trajectory is closed. -/
theorem c1_binding_substitutes_independent_counter :
    tid1 = 1
  ∧ S1.engines = [{ E1 with
      next_traj_id := 101,
      open_trajectories := [⟨100, emb01, [], none⟩] }]
  ∧ recordStep S1 tid1 1 (9/10) 100 =
      { S1 with console := S1.console ++ [.stepLog tid1 1 (9/10) 100] }
  ∧ endTrajectory S1 tid1 (85/100) =
      { S1 with console := S1.console ++ [.endLog tid1 (85/100)] } :=
  ⟨rfl, rfl, rfl, rfl⟩

/-- C2: on the spec's own scenario (embedding [0.1,0.1,0.1,0.1], one step
(1, 0.9, 100), final score 0.85 ≥ threshold 3/5) the binding's
`end_trajectory` changes no Micro weight, so `apply_lora` on [1,1,1,1]
before and after the end call returns the same output, contradicting the
claimed weight change. -/
theorem c2_end_trajectory_never_updates_micro :
    cfg4.quality_threshold ≤ (85/100 : ℚ)
  ∧ applyLora S2 0 probe1 = applyLora S1 0 probe1
  ∧ (S2.engines[0]?).map SonaEngine.micro = some microE :=
  ⟨by norm_num [cfg4], rfl, rfl⟩

/-- C3: no validation error reaches the caller through the binding.  With
configured dimension 4, `start_trajectory` on the length-1 embedding [1/2]
still returns the counter id 1 (the core's rejection is discarded and the
engine is silently left unchanged), and `end_trajectory` with the
out-of-range final score 5 returns normally, appending only a console
line. -/
theorem c3_no_validation_error_reaches_the_caller :
    (startTrajectory P0 0 [1/2]).1 = 1
  ∧ (startTrajectory P0 0 [1/2]).2.engines = P0.engines
  ∧ endTrajectory P0 42 5 = { P0 with console := [.endLog 42 5] } :=
  ⟨rfl, rfl, rfl⟩

/-- C5: a second `end_trajectory` on the same id behaves exactly like the
first: it appends one more console line, leaves every engine untouched and
returns unit — the binding has no error channel, so no `InvalidState` is
reported. -/
theorem c5_second_end_silently_succeeds :
    endTrajectory SE1 7 (1/2) =
      { SE1 with console := SE1.console ++ [.endLog 7 (1/2)] }
  ∧ (endTrajectory SE1 7 (1/2)).engines = P0.engines :=
  ⟨rfl, rfl⟩

/-- C6: with one configured Base layer, the core rejects layer index 5 with
`OutOfRange`, but the binding discards that result and hands the caller the
untouched zero buffer instead of an error; the in-range index 0 returns
the low-rank composition. -/
theorem c6_out_of_range_layer_error_swallowed :
    E1.apply_base_lora 5 probe1 = .error .OutOfRange
  ∧ applyLoraLayer P0 0 5 probe1 = [0, 0, 0, 0]
  ∧ applyLoraLayer P0 0 0 probe1 =
      vecAdd probe1 (vecScale baseL.scale (matVec baseL.B (matVec baseL.A probe1))) :=
  ⟨rfl, rfl, rfl⟩

/-- C4: when the engine is disabled, `apply_lora` and `apply_lora_layer`
return the unmodified input vector for every input and every layer index,
and `end_trajectory` alters no engine state at all (in particular neither
Micro nor Base weights). -/
theorem c4_disabled_engine_passthrough (s : WasmProc) (i : Nat) (e : SonaEngine)
    (input : Vec) (layer_idx trajectory_id : Nat) (final_score : ℚ)
    (hget : s.engines[i]? = some e) (hdis : e.enabled = false) :
    applyLora s i input = input
  ∧ applyLoraLayer s i layer_idx input = input
  ∧ (endTrajectory s trajectory_id final_score).engines = s.engines := by
  refine ⟨?_, ?_, rfl⟩
  · simp [applyLora, hget, SonaEngine.apply_micro_lora, hdis]
  · simp [applyLoraLayer, hget, SonaEngine.apply_base_lora, hdis]

theorem c4_witness :
    applyLora Pdis 0 probe1 = probe1
  ∧ applyLoraLayer Pdis 0 9 probe1 = probe1
  ∧ (endTrajectory Pdis 3 (1/2)).engines = Pdis.engines :=
  c4_disabled_engine_passthrough Pdis 0 Edis probe1 9 3 (1/2) rfl rfl

theorem listModify_get_eq {α : Type _} (a : α) :
    ∀ (i : Nat) (l : List α), l[i]? = some a →
      listModify (fun _ => a) i l = l := by
  intro i l
  induction l generalizing i with
  | nil => intro h; simp [List.get?] at h
  | cons b bs ih =>
    cases i with
    | zero => intro h; simp [List.get?] at h; simp [listModify, h]
    | succ n => intro h; simp [List.get?] at h; simp [listModify, ih n h]

/-- C7: `force_learn` on an engine with an empty trajectory buffer does not
fail: it returns the explicit "nothing to learn" diagnostic and the whole
process state — in particular every Micro and Base weight — is bit-for-bit
unchanged. -/
theorem c7_force_learn_empty_buffer_noop (s : WasmProc) (i : Nat)
    (e : SonaEngine) (hget : s.engines[i]? = some e)
    (hempty : e.buffer = []) :
    (forceLearn s i).1 = "nothing to learn" ∧ (forceLearn s i).2 = s := by
  have hfl : e.force_learn = (e, "nothing to learn") := by
    simp [SonaEngine.force_learn, hempty]
  refine ⟨?_, ?_⟩
  · simp [forceLearn, hget, hfl]
  · simp [forceLearn, hget, hfl, WasmProc.modifyEngine,
      listModify_get_eq e i s.engines hget]

theorem c7_witness :
    (forceLearn P0 0).1 = "nothing to learn" ∧ (forceLearn P0 0).2 = P0 :=
  c7_force_learn_empty_buffer_noop P0 0 E1 rfl rfl

theorem patLe_total : ∀ a b : Pattern × ℚ, patLe a b ∨ patLe b a := by
  intro a b
  unfold patLe
  rcases lt_trichotomy a.2 b.2 with h | h | h
  · exact Or.inl (Or.inl h)
  · rcases Nat.lt_trichotomy a.1.member_count b.1.member_count with h2 | h2 | h2
    · exact Or.inr (Or.inr ⟨h.symm, Or.inl h2⟩)
    · rcases Nat.le_total a.1.id b.1.id with h3 | h3
      · exact Or.inl (Or.inr ⟨h, Or.inr ⟨h2, h3⟩⟩)
      · exact Or.inr (Or.inr ⟨h.symm, Or.inr ⟨h2.symm, h3⟩⟩)
    · exact Or.inl (Or.inr ⟨h, Or.inl h2⟩)
  · exact Or.inr (Or.inl h)

theorem patLe_trans : ∀ a b c : Pattern × ℚ, patLe a b → patLe b c → patLe a c := by
  intro a b c hab hbc
  unfold patLe at hab hbc ⊢
  rcases hab with h1 | ⟨e1, h1⟩ <;> rcases hbc with h2 | ⟨e2, h2⟩
  · exact Or.inl (h1.trans h2)
  · exact Or.inl (e2 ▸ h1)
  · exact Or.inl (by rw [e1]; exact h2)
  · refine Or.inr ⟨e1.trans e2, ?_⟩
    rcases h1 with m1 | ⟨me1, i1⟩ <;> rcases h2 with m2 | ⟨me2, i2⟩
    · exact Or.inl (m2.trans m1)
    · exact Or.inl (by omega)
    · exact Or.inl (by omega)
    · exact Or.inr ⟨me1.trans me2, i1.trans i2⟩

instance : IsTotal (Pattern × ℚ) patLe := ⟨patLe_total⟩

instance : IsTrans (Pattern × ℚ) patLe := ⟨patLe_trans⟩

/-- C8: for every query and every k, `find_patterns` returns at most k
distance-tagged patterns, sorted ascending by distance with ties broken by
higher member count and then by lower pattern id; an empty pattern memory
yields an empty result (not an error), and every returned entry is a stored
pattern tagged with its true distance to the query. -/
theorem c8_find_patterns_ordered (e : SonaEngine) (q : Vec) (k : Nat) :
    (e.find_patterns q k).length ≤ k
  ∧ List.Sorted patLe (e.find_patterns q k)
  ∧ (e.patterns = [] → e.find_patterns q k = [])
  ∧ ∀ pr ∈ e.find_patterns q k, pr.1 ∈ e.patterns ∧ pr.2 = pdist q pr.1 := by
  refine ⟨?_, ?_, ?_, ?_⟩
  · exact (List.length_take _ _).trans_le (min_le_left _ _)
  · exact List.Pairwise.sublist (List.take_sublist _ _)
      (List.sorted_insertionSort patLe _)
  · intro h
    simp [SonaEngine.find_patterns, h]
  · intro pr hpr
    have h1 : pr ∈ (e.patterns.map fun p => (p, pdist q p)).insertionSort patLe :=
      (List.take_sublist _ _).subset hpr
    have h2 : pr ∈ e.patterns.map fun p => (p, pdist q p) :=
      (List.perm_insertionSort patLe _).mem_iff.mp h1
    rcases List.mem_map.mp h2 with ⟨p, hp, rfl⟩
    exact ⟨hp, rfl⟩

theorem c8_witness :
    E1.find_patterns probe1 3 = []
  ∧ (E1.find_patterns probe1 3).length ≤ 3 :=
  ⟨(c8_find_patterns_ordered E1 probe1 3).2.2.1 rfl,
   (c8_find_patterns_ordered E1 probe1 3).1⟩

/-- C9: `start_trajectory` is total and its result ignores both the engine
and the embedding: on any process state it returns the current value of the
single process-global counter (initialised to 1 by `WasmProc.init`)
whatever engine index or embedding is passed, and — as long as the u64
counter has not wrapped — the immediately following call on any engine
returns the successor, so successive ids strictly increase. -/
theorem c9_global_counter_ids (s : WasmProc) (i j : Nat) (a b : Vec)
    (h : s.next_global_id + 1 < 2 ^ 64) :
    (startTrajectory s i a).1 = s.next_global_id
  ∧ (startTrajectory (startTrajectory s i a).2 j b).1 = s.next_global_id + 1
  ∧ (startTrajectory s i a).1 < (startTrajectory (startTrajectory s i a).2 j b).1
  ∧ ∀ es : List SonaEngine, (WasmProc.init es).next_global_id = 1 := by
  have h2 : (startTrajectory (startTrajectory s i a).2 j b).1 =
      (s.next_global_id + 1) % 2 ^ 64 := rfl
  have h3 : (s.next_global_id + 1) % 2 ^ 64 = s.next_global_id + 1 :=
    Nat.mod_eq_of_lt h
  refine ⟨rfl, by rw [h2, h3], ?_, fun es => rfl⟩
  rw [show (startTrajectory s i a).1 = s.next_global_id from rfl, h2, h3]
  omega

theorem c9_witness :
    (startTrajectory P0 0 emb01).1 = 1
  ∧ (startTrajectory P0 0 emb01).1 <
      (startTrajectory (startTrajectory P0 0 emb01).2 0 probe1).1 :=
  ⟨(c9_global_counter_ids P0 0 0 emb01 probe1 (by decide)).1,
   (c9_global_counter_ids P0 0 0 emb01 probe1 (by decide)).2.2.1⟩

/-- C10: `with_config` rejects every JavaScript value that is not a string
— including the plain configuration object of its own documented example —
with exactly the error "Expected JSON string", and every successful
construction through it came from a string value. -/
theorem c10_with_config_requires_json_string
    (parse : String → Except String SonaConfig) (v : JsValue)
    (hv : ∀ s : String, v ≠ JsValue.jstr s) :
    with_config parse v = .error "Expected JSON string"
  ∧ ∀ (w : JsValue) (eng : SonaEngine),
      with_config parse w = .ok eng → ∃ s : String, w = JsValue.jstr s := by
  refine ⟨?_, ?_⟩
  · cases v with
    | jstr s => exact absurd rfl (hv s)
    | jobject => rfl
    | jother => rfl
  · intro w eng hw
    cases w with
    | jstr s => exact ⟨s, rfl⟩
    | jobject => simp [with_config, serde_from_value, Except.map] at hw
    | jother => simp [with_config, serde_from_value, Except.map] at hw

theorem c10_witness :
    with_config (fun _ => Except.error "unused") JsValue.jobject =
      Except.error "Expected JSON string" :=
  (c10_with_config_requires_json_string (fun _ => Except.error "unused")
    JsValue.jobject (fun _ h => JsValue.noConfusion h)).1

end Sona
